import Mathlib

set_option maxRecDepth 8000
set_option maxHeartbeats 4000000

/-!
Shallow embedding of the ChaCha20 implementations in `chacha20.hpp` (scalar
engine) and `chacha20_AVX.hpp` (dual-block AVX2 engine), together with proofs
of the specification claims.  Machine words (`std::uint32_t`) are modelled as
natural numbers, reduced modulo `2^32` exactly where the C++ code relies on
unsigned wraparound.  Byte vectors (`std::vector<std::uint8_t>`) are modelled
as lists of naturals below 256.
-/

/-- Modulus of an unsigned 32-bit machine word. -/
def M32 : Nat := 4294967296

/-- Unsigned 32-bit addition with wraparound, as performed on `uint32_t`. -/
def add32 (a b : Nat) : Nat := (a + b) % M32

/-- Byte swap of a 32-bit word; `little_endian` in both headers. -/
def little_endian (x : Nat) : Nat :=
  ((x &&& 0xFF000000) >>> 24) |||
  ((x &&& 0x00FF0000) >>> 8) |||
  ((x &&& 0x0000FF00) <<< 8) |||
  ((x &&& 0x000000FF) <<< 24)

namespace Chacha20

/-- Left rotation of a 32-bit word; `rotl` in chacha20.hpp computes
`(x << s) | (x >> (32-s))` on `uint32_t`. -/
def rotl (x s : Nat) : Nat := ((x <<< s) % M32) ||| (x >>> (32 - s))

/-- The quarter round of chacha20.hpp, returning the updated `(a, b, c, d)`. -/
def quarter_round (a b c d : Nat) : Nat × Nat × Nat × Nat :=
  let a := add32 a b; let d := rotl (d ^^^ a) 16
  let c := add32 c d; let b := rotl (b ^^^ c) 12
  let a := add32 a b; let d := rotl (d ^^^ a) 8
  let c := add32 c d; let b := rotl (b ^^^ c) 7
  (a, b, c, d)

/-- The 16-word `internal_state` array (`std::array<std::uint32_t, 16>`),
arranged as the 4x4 ChaCha matrix in row-major order. -/
structure State where
  s0 : Nat
  s1 : Nat
  s2 : Nat
  s3 : Nat
  s4 : Nat
  s5 : Nat
  s6 : Nat
  s7 : Nat
  s8 : Nat
  s9 : Nat
  s10 : Nat
  s11 : Nat
  s12 : Nat
  s13 : Nat
  s14 : Nat
  s15 : Nat
deriving DecidableEq, Repr

/-- The array contents as a list, index i holding word i. -/
def State.words (m : State) : List Nat :=
  [m.s0, m.s1, m.s2, m.s3, m.s4, m.s5, m.s6, m.s7,
   m.s8, m.s9, m.s10, m.s11, m.s12, m.s13, m.s14, m.s15]

/-- The double round of chacha20.hpp: a quarter round on each of the four
columns, then on each of the four diagonals. -/
def double_round (m : State) : State :=
  let (a0, a4, a8, a12) := quarter_round m.s0 m.s4 m.s8 m.s12
  let (a1, a5, a9, a13) := quarter_round m.s1 m.s5 m.s9 m.s13
  let (a2, a6, a10, a14) := quarter_round m.s2 m.s6 m.s10 m.s14
  let (a3, a7, a11, a15) := quarter_round m.s3 m.s7 m.s11 m.s15
  let (b0, b5, b10, b15) := quarter_round a0 a5 a10 a15
  let (b1, b6, b11, b12) := quarter_round a1 a6 a11 a12
  let (b2, b7, b8, b13) := quarter_round a2 a7 a8 a13
  let (b3, b4, b9, b14) := quarter_round a3 a4 a9 a14
  ⟨b0, b1, b2, b3, b4, b5, b6, b7, b8, b9, b10, b11, b12, b13, b14, b15⟩

/-- Word-by-word matrix addition modulo 2^32 (the feed-forward step). -/
def addState (x y : State) : State :=
  ⟨add32 x.s0 y.s0, add32 x.s1 y.s1, add32 x.s2 y.s2, add32 x.s3 y.s3,
   add32 x.s4 y.s4, add32 x.s5 y.s5, add32 x.s6 y.s6, add32 x.s7 y.s7,
   add32 x.s8 y.s8, add32 x.s9 y.s9, add32 x.s10 y.s10, add32 x.s11 y.s11,
   add32 x.s12 y.s12, add32 x.s13 y.s13, add32 x.s14 y.s14, add32 x.s15 y.s15⟩

/-- `chacha20_block` of chacha20.hpp: increment `internal_state[12]`, copy the
state, run 10 double rounds on the copy, and add the copy back onto the
(incremented) state.  Returns the new `internal_state` together with the
returned keystream block. -/
def chacha20_block (m : State) : State × State :=
  let m1 : State := { m with s12 := add32 m.s12 1 }
  let cpy := double_round^[10] m1
  (m1, addState cpy m1)

/-- `init` of chacha20.hpp: constants, little-endian key words, block count,
little-endian nonce words. -/
def init (key : List Nat) (block_count : Nat) (nonce : List Nat) : State :=
  ⟨0x61707865, 0x3320646e, 0x79622d32, 0x6b206574,
   little_endian (key.getD 0 0), little_endian (key.getD 1 0),
   little_endian (key.getD 2 0), little_endian (key.getD 3 0),
   little_endian (key.getD 4 0), little_endian (key.getD 5 0),
   little_endian (key.getD 6 0), little_endian (key.getD 7 0),
   block_count,
   little_endian (nonce.getD 0 0), little_endian (nonce.getD 1 0),
   little_endian (nonce.getD 2 0)⟩

/-- The inner for loop of `encrypt`: XOR successive message bytes with bytes
of the keystream block, `stream[stream_idx/4] >> (8*(stream_idx%4))`
truncated to a byte, while `stream_idx < 64`. -/
def xorStream (stream : List Nat) (msg : List Nat) (stream_idx : Nat) : List Nat :=
  match msg with
  | [] => []
  | b :: rest =>
    if stream_idx < 64 then
      ((b ^^^ (stream.getD (stream_idx / 4) 0 >>> (8 * (stream_idx % 4)))) % 256) ::
        xorStream stream rest (stream_idx + 1)
    else []

/-- The while loop of `encrypt`: one `chacha20_block` call per 64-byte chunk
of the message.  Returns the final `internal_state` and the output bytes. -/
def encryptLoop (m : State) (message : List Nat) : State × List Nat :=
  match message with
  | [] => (m, [])
  | b :: rest =>
    let p := chacha20_block m
    let out := xorStream p.2.words (b :: rest) 0
    let q := encryptLoop p.1 ((b :: rest).drop 64)
    (q.1, out ++ q.2)
termination_by message.length
decreasing_by simp [List.length_drop]; omega

/-- Fuel-indexed variant of `encryptLoop` that is structurally recursive,
so that concrete instances reduce inside the kernel. -/
def encryptFuel : Nat → State → List Nat → State × List Nat
  | 0, m, _ => (m, [])
  | _, m, [] => (m, [])
  | fuel + 1, m, b :: rest =>
    let p := chacha20_block m
    let out := xorStream p.2.words (b :: rest) 0
    let q := encryptFuel fuel p.1 ((b :: rest).drop 64)
    (q.1, out ++ q.2)

/-- The data members of the scalar `Chacha20` class. -/
structure Engine where
  internal_state : State
  key : List Nat
  block_count : Nat
  nonce : List Nat
deriving DecidableEq, Repr

/-- The scalar constructor `Chacha20::Chacha20`: it stores `block_count - 1`
(wrapping on `uint32_t`) and calls `init`. -/
def construct (key : List Nat) (block_count : Nat) (nonce : List Nat) : Engine :=
  let bc := (block_count + (M32 - 1)) % M32
  { internal_state := init key bc nonce
    key := key
    block_count := bc
    nonce := nonce }

/-- `secure_zero`: every element of the array is overwritten with 0 through a
volatile pointer. -/
def secure_zero (arr : List Nat) : List Nat := arr.map fun _ => 0

/-- The destructor: `secure_zero(key); block_count = 0; secure_zero(nonce);`.
The `internal_state` member is left untouched. -/
def Engine.destruct (c : Engine) : Engine :=
  { c with
    key := secure_zero c.key
    block_count := 0
    nonce := secure_zero c.nonce }

/-- `Chacha20::encrypt` of the scalar engine. -/
def Engine.encrypt (c : Engine) (message : List Nat) : Engine × List Nat :=
  let p := encryptLoop c.internal_state message
  ({ c with internal_state := p.1 }, p.2)

/-- One-shot transform on a freshly constructed scalar engine. -/
def transform (key : List Nat) (block_count : Nat) (nonce : List Nat)
    (message : List Nat) : List Nat :=
  ((construct key block_count nonce).encrypt message).2

end Chacha20

namespace Chacha20AVX

/-- A 256-bit AVX2 register (`__m256i`) viewed as eight 32-bit lanes;
lane 0 is the least significant. -/
structure V8 where
  l0 : Nat
  l1 : Nat
  l2 : Nat
  l3 : Nat
  l4 : Nat
  l5 : Nat
  l6 : Nat
  l7 : Nat
deriving DecidableEq, Repr

/-- `_mm256_set_epi32(e7, ..., e0)` places `e0` in lane 0 up to `e7` in
lane 7. -/
def mm256_set_epi32 (e7 e6 e5 e4 e3 e2 e1 e0 : Nat) : V8 :=
  ⟨e0, e1, e2, e3, e4, e5, e6, e7⟩

/-- `_mm256_add_epi32`: lane-wise 32-bit addition. -/
def mm256_add_epi32 (a b : V8) : V8 :=
  ⟨add32 a.l0 b.l0, add32 a.l1 b.l1, add32 a.l2 b.l2, add32 a.l3 b.l3,
   add32 a.l4 b.l4, add32 a.l5 b.l5, add32 a.l6 b.l6, add32 a.l7 b.l7⟩

/-- `_mm256_xor_si256`: lane-wise XOR. -/
def mm256_xor_si256 (a b : V8) : V8 :=
  ⟨a.l0 ^^^ b.l0, a.l1 ^^^ b.l1, a.l2 ^^^ b.l2, a.l3 ^^^ b.l3,
   a.l4 ^^^ b.l4, a.l5 ^^^ b.l5, a.l6 ^^^ b.l6, a.l7 ^^^ b.l7⟩

/-- `_mm256_slli_epi32`: lane-wise left shift on 32-bit lanes. -/
def mm256_slli_epi32 (a : V8) (s : Nat) : V8 :=
  ⟨(a.l0 <<< s) % M32, (a.l1 <<< s) % M32, (a.l2 <<< s) % M32, (a.l3 <<< s) % M32,
   (a.l4 <<< s) % M32, (a.l5 <<< s) % M32, (a.l6 <<< s) % M32, (a.l7 <<< s) % M32⟩

/-- `_mm256_srli_epi32`: lane-wise logical right shift. -/
def mm256_srli_epi32 (a : V8) (s : Nat) : V8 :=
  ⟨a.l0 >>> s, a.l1 >>> s, a.l2 >>> s, a.l3 >>> s,
   a.l4 >>> s, a.l5 >>> s, a.l6 >>> s, a.l7 >>> s⟩

/-- `_mm256_or_si256`: lane-wise OR. -/
def mm256_or_si256 (a b : V8) : V8 :=
  ⟨a.l0 ||| b.l0, a.l1 ||| b.l1, a.l2 ||| b.l2, a.l3 ||| b.l3,
   a.l4 ||| b.l4, a.l5 ||| b.l5, a.l6 ||| b.l6, a.l7 ||| b.l7⟩

/-- Lane selection used by the permute intrinsic. -/
def V8.lane (a : V8) (i : Nat) : Nat :=
  match i with
  | 0 => a.l0
  | 1 => a.l1
  | 2 => a.l2
  | 3 => a.l3
  | 4 => a.l4
  | 5 => a.l5
  | 6 => a.l6
  | 7 => a.l7
  | _ => 0

/-- `_mm256_permutevar8x32_epi32 a idx`: result lane i is the lane of `a`
selected by the low 3 bits of lane i of `idx`. -/
def mm256_permutevar8x32_epi32 (a idx : V8) : V8 :=
  ⟨a.lane (idx.l0 % 8), a.lane (idx.l1 % 8), a.lane (idx.l2 % 8), a.lane (idx.l3 % 8),
   a.lane (idx.l4 % 8), a.lane (idx.l5 % 8), a.lane (idx.l6 % 8), a.lane (idx.l7 % 8)⟩

/-- `rotl_avx2` of chacha20_AVX.hpp. -/
def rotl_avx2 (x : V8) (s : Nat) : V8 :=
  mm256_or_si256 (mm256_slli_epi32 x s) (mm256_srli_epi32 x (32 - s))

/-- The `internal_state` of the AVX engine: `std::array<__m256i, 4>`, one
register per matrix row, each row held twice (two consecutive blocks). -/
structure Rows where
  r0 : V8
  r1 : V8
  r2 : V8
  r3 : V8
deriving DecidableEq, Repr

/-- The AVX double round of chacha20_AVX.hpp: lane-wise column quarter
rounds, a lane permutation aligning diagonals into columns, lane-wise
diagonal quarter rounds, and the inverse permutation. -/
def double_round (st : Rows) : Rows :=
  let s0 := mm256_add_epi32 st.r0 st.r1
  let s3 := mm256_xor_si256 st.r3 s0
  let s3 := rotl_avx2 s3 16
  let s2 := mm256_add_epi32 st.r2 s3
  let s1 := mm256_xor_si256 st.r1 s2
  let s1 := rotl_avx2 s1 12
  let s0 := mm256_add_epi32 s0 s1
  let s3 := mm256_xor_si256 s3 s0
  let s3 := rotl_avx2 s3 8
  let s2 := mm256_add_epi32 s2 s3
  let s1 := mm256_xor_si256 s1 s2
  let s1 := rotl_avx2 s1 7
  let s1 := mm256_permutevar8x32_epi32 s1 (mm256_set_epi32 6 5 4 7 2 1 0 3)
  let s2 := mm256_permutevar8x32_epi32 s2 (mm256_set_epi32 5 4 7 6 1 0 3 2)
  let s3 := mm256_permutevar8x32_epi32 s3 (mm256_set_epi32 4 7 6 5 0 3 2 1)
  let s0 := mm256_add_epi32 s0 s1
  let s3 := mm256_xor_si256 s3 s0
  let s3 := rotl_avx2 s3 16
  let s2 := mm256_add_epi32 s2 s3
  let s1 := mm256_xor_si256 s1 s2
  let s1 := rotl_avx2 s1 12
  let s0 := mm256_add_epi32 s0 s1
  let s3 := mm256_xor_si256 s3 s0
  let s3 := rotl_avx2 s3 8
  let s2 := mm256_add_epi32 s2 s3
  let s1 := mm256_xor_si256 s1 s2
  let s1 := rotl_avx2 s1 7
  let s1 := mm256_permutevar8x32_epi32 s1 (mm256_set_epi32 4 7 6 5 0 3 2 1)
  let s2 := mm256_permutevar8x32_epi32 s2 (mm256_set_epi32 5 4 7 6 1 0 3 2)
  let s3 := mm256_permutevar8x32_epi32 s3 (mm256_set_epi32 6 5 4 7 2 1 0 3)
  ⟨s0, s1, s2, s3⟩

/-- `chacha20_block` of chacha20_AVX.hpp: add 2 to both block counter lanes
of row 3, copy, run 10 double rounds on the copy, add the copy back.
Returns the new `internal_state` and the two keystream blocks. -/
def chacha20_block (st : Rows) : Rows × Rows :=
  let st1 : Rows :=
    { st with r3 := mm256_add_epi32 st.r3 (mm256_set_epi32 2 0 0 0 2 0 0 0) }
  let cpy := double_round^[10] st1
  (st1,
   ⟨mm256_add_epi32 cpy.r0 st1.r0, mm256_add_epi32 cpy.r1 st1.r1,
    mm256_add_epi32 cpy.r2 st1.r2, mm256_add_epi32 cpy.r3 st1.r3⟩)

/-- `init` of chacha20_AVX.hpp.  The first computed block lives in the high
128-bit half (counter `block_count - 2` before the pre-increment), the
second in the low half (counter `block_count - 1`). -/
def init (key : List Nat) (block_count : Nat) (nonce : List Nat) : Rows :=
  { r0 := mm256_set_epi32 0x61707865 0x3320646e 0x79622d32 0x6b206574
            0x61707865 0x3320646e 0x79622d32 0x6b206574
    r1 := mm256_set_epi32 (little_endian (key.getD 0 0)) (little_endian (key.getD 1 0))
            (little_endian (key.getD 2 0)) (little_endian (key.getD 3 0))
            (little_endian (key.getD 0 0)) (little_endian (key.getD 1 0))
            (little_endian (key.getD 2 0)) (little_endian (key.getD 3 0))
    r2 := mm256_set_epi32 (little_endian (key.getD 4 0)) (little_endian (key.getD 5 0))
            (little_endian (key.getD 6 0)) (little_endian (key.getD 7 0))
            (little_endian (key.getD 4 0)) (little_endian (key.getD 5 0))
            (little_endian (key.getD 6 0)) (little_endian (key.getD 7 0))
    r3 := mm256_set_epi32 ((block_count + (M32 - 2)) % M32)
            (little_endian (nonce.getD 0 0)) (little_endian (nonce.getD 1 0))
            (little_endian (nonce.getD 2 0))
            ((block_count + (M32 - 1)) % M32)
            (little_endian (nonce.getD 0 0)) (little_endian (nonce.getD 1 0))
            (little_endian (nonce.getD 2 0)) }

/-- Memory image of a register as written by `_mm256_storeu_si256`:
lane 0 first. -/
def V8.toList (v : V8) : List Nat :=
  [v.l0, v.l1, v.l2, v.l3, v.l4, v.l5, v.l6, v.l7]

/-- The `stream_arr` array of `encrypt` after the four stores. -/
def streamArr (st : Rows) : List (List Nat) :=
  [st.r0.toList, st.r1.toList, st.r2.toList, st.r3.toList]

/-- The two conditional updates at the top of the XOR loop body:
`if (arr_idx/4 == 4) row++, arr_idx = 0; if (row == 4) corr = 4, row = 0;`.
Returns the updated `(row, corr, arr_idx)`. -/
def upd (row corr arr_idx : Nat) : Nat × Nat × Nat :=
  let ra := if arr_idx / 4 = 4 then (row + 1, 0) else (row, arr_idx)
  let cr := if ra.1 = 4 then (4, 0) else (corr, ra.1)
  (cr.2, cr.1, ra.2)

/-- The XOR for loop of the AVX `encrypt`: up to 128 bytes per keystream
pair, reading `stream_arr[row][7 - arr_idx/4 - corr]`. -/
def xorLoop (stream_arr : List (List Nat)) (msg : List Nat)
    (stream_idx row corr arr_idx : Nat) : List Nat :=
  match msg with
  | [] => []
  | b :: rest =>
    if stream_idx < 128 then
      let u := upd row corr arr_idx
      ((b ^^^ (((stream_arr.getD u.1 []).getD (7 - u.2.2 / 4 - u.2.1) 0) >>>
          (8 * (stream_idx % 4)))) % 256) ::
        xorLoop stream_arr rest (stream_idx + 1) u.1 u.2.1 (u.2.2 + 1)
    else []

/-- The while loop of the AVX `encrypt`: one dual-block call per 128 bytes. -/
def encryptLoop (st : Rows) (message : List Nat) : Rows × List Nat :=
  match message with
  | [] => (st, [])
  | b :: rest =>
    let p := chacha20_block st
    let out := xorLoop (streamArr p.2) (b :: rest) 0 0 0 0
    let q := encryptLoop p.1 ((b :: rest).drop 128)
    (q.1, out ++ q.2)
termination_by message.length
decreasing_by simp [List.length_drop]; omega

/-- Fuel-indexed variant of the AVX `encryptLoop`, structurally recursive so
that concrete instances reduce inside the kernel. -/
def encryptFuel : Nat → Rows → List Nat → Rows × List Nat
  | 0, st, _ => (st, [])
  | _, st, [] => (st, [])
  | fuel + 1, st, b :: rest =>
    let p := chacha20_block st
    let out := xorLoop (streamArr p.2) (b :: rest) 0 0 0 0
    let q := encryptFuel fuel p.1 ((b :: rest).drop 128)
    (q.1, out ++ q.2)

/-- The data members of the AVX `Chacha20` class. -/
structure Engine where
  internal_state : Rows
  key : List Nat
  block_count : Nat
  nonce : List Nat
deriving DecidableEq, Repr

/-- The AVX constructor: stores `block_count` unchanged and calls `init`. -/
def construct (key : List Nat) (block_count : Nat) (nonce : List Nat) : Engine :=
  { internal_state := init key block_count nonce
    key := key
    block_count := block_count
    nonce := nonce }

/-- `Chacha20::encrypt` of the AVX engine. -/
def Engine.encrypt (c : Engine) (message : List Nat) : Engine × List Nat :=
  let p := encryptLoop c.internal_state message
  ({ c with internal_state := p.1 }, p.2)

end Chacha20AVX

/-!
Proof-support definitions: the refinement relation between the AVX state and
a pair of scalar states, closed forms for the AVX XOR-loop counters, the
specification-side block function for claim C5, and the spec-modelled
length-checking constructor for claim C8.
-/

/-- Scalar state with the block counter slot incremented by 1 (the
pre-increment performed by the scalar `chacha20_block`). -/
def bump (m : Chacha20.State) : Chacha20.State :=
  { m with s12 := add32 m.s12 1 }

/-- Scalar state with the block counter slot incremented by 2 (the
pre-increment performed by the AVX `chacha20_block` on each counter lane). -/
def bump2 (m : Chacha20.State) : Chacha20.State :=
  { m with s12 := add32 m.s12 2 }

/-- Scalar state with the block counter slot decremented by 1 on `uint32_t`. -/
def decCtr (m : Chacha20.State) : Chacha20.State :=
  { m with s12 := (m.s12 + (M32 - 1)) % M32 }

/-- The packing of two scalar 16-word states into the four AVX registers:
within each 128-bit half the four words of a matrix row are stored in
reverse lane order, the high half holding `hi` and the low half `lo`. -/
def embed (hi lo : Chacha20.State) : Chacha20AVX.Rows :=
  { r0 := ⟨lo.s3, lo.s2, lo.s1, lo.s0, hi.s3, hi.s2, hi.s1, hi.s0⟩
    r1 := ⟨lo.s7, lo.s6, lo.s5, lo.s4, hi.s7, hi.s6, hi.s5, hi.s4⟩
    r2 := ⟨lo.s11, lo.s10, lo.s9, lo.s8, hi.s11, hi.s10, hi.s9, hi.s8⟩
    r3 := ⟨lo.s15, lo.s14, lo.s13, lo.s12, hi.s15, hi.s14, hi.s13, hi.s12⟩ }

/-- Row-3 word bounds needed so that adding the lane increment vector
(2 on the counter lanes, 0 elsewhere) leaves the nonce lanes unchanged. -/
def Row3Bounded (m : Chacha20.State) : Prop :=
  m.s13 < M32 ∧ m.s14 < M32 ∧ m.s15 < M32

/-- Value of the AVX XOR-loop variable `row` on entry to iteration i. -/
def rowPre (i : Nat) : Nat := if i = 0 then 0 else ((i - 1) / 16) % 4

/-- Value of the AVX XOR-loop variable `corr` on entry to iteration i. -/
def corrPre (i : Nat) : Nat := if i ≤ 64 then 0 else 4

/-- Value of the AVX XOR-loop variable `arr_idx` on entry to iteration i. -/
def arrPre (i : Nat) : Nat := if i = 0 then 0 else ((i - 1) % 16) + 1

/-- Specification-side quarter round applied in place at four indices of a
16-word list (claim C5 words the double round through index sets). -/
def qrAt (s : List Nat) (ia ib ic idd : Nat) : List Nat :=
  let r := Chacha20.quarter_round (s.getD ia 0) (s.getD ib 0) (s.getD ic 0) (s.getD idd 0)
  ((((s.set ia r.1).set ib r.2.1).set ic r.2.2.1).set idd r.2.2.2)

/-- Specification-side double round: quarter rounds on the four columns,
then on the four diagonals, in the order stated by the spec. -/
def spec_double_round (s : List Nat) : List Nat :=
  qrAt (qrAt (qrAt (qrAt
    (qrAt (qrAt (qrAt (qrAt s 0 4 8 12) 1 5 9 13) 2 6 10 14) 3 7 11 15)
    0 5 10 15) 1 6 11 12) 2 7 8 13) 3 4 9 14

/-- Specification-side block function: copy the state, apply exactly 10
double rounds to the copy, and add the copy word-by-word modulo 2^32 to the
pre-round state. -/
def spec_block (s : List Nat) : List Nat :=
  List.zipWith add32 (spec_double_round^[10] s) s

/-- Construction error taxonomy of the spec. -/
inductive ConstructError where
  | InvalidLength
deriving DecidableEq

/-- Modelled from the spec: the length-validating constructor of the source
variant absent from src/ (the two headers present take fixed-size
`std::array` arguments and cannot receive wrong lengths).  Construction
fails with an InvalidLength error if the key is not exactly 8 words or the
nonce not exactly 3 words, and otherwise builds the engine. -/
def construct_checked (key : List Nat) (block_count : Nat) (nonce : List Nat) :
    Except ConstructError Chacha20.Engine :=
  if key.length ≠ 8 ∨ nonce.length ≠ 3 then .error .InvalidLength
  else .ok (Chacha20.construct key block_count nonce)


/-!
The four RFC 8439 test vectors of test.cpp: key words and nonce words parsed
big-endian from the hex strings (8 hex digits per word), the counter parsed
as decimal, plaintext and expected ciphertext as byte sequences.
-/

/-- Key words of test vector 1. -/
def tv1_key : List Nat :=
  [66051, 67438087, 134810123, 202182159,
   269554195, 336926231, 404298267, 471670303]

/-- Nonce words of test vector 1. -/
def tv1_nonce : List Nat := [0, 74, 0]

/-- Plaintext bytes of test vector 1. -/
def tv1_plain : List Nat :=
  [76, 97, 100, 105, 101, 115, 32, 97, 110, 100, 32, 71,
   101, 110, 116, 108, 101, 109, 101, 110, 32, 111, 102, 32,
   116, 104, 101, 32, 99, 108, 97, 115, 115, 32, 111, 102,
   32, 39, 57, 57, 58, 32, 73, 102, 32, 73, 32, 99,
   111, 117, 108, 100, 32, 111, 102, 102, 101, 114, 32, 121,
   111, 117, 32, 111, 110, 108, 121, 32, 111, 110, 101, 32,
   116, 105, 112, 32, 102, 111, 114, 32, 116, 104, 101, 32,
   102, 117, 116, 117, 114, 101, 44, 32, 115, 117, 110, 115,
   99, 114, 101, 101, 110, 32, 119, 111, 117, 108, 100, 32,
   98, 101, 32, 105, 116, 46]

/-- Expected ciphertext bytes of test vector 1. -/
def tv1_cipher : List Nat :=
  [110, 46, 53, 154, 37, 104, 249, 128, 65, 186, 7, 40,
   221, 13, 105, 129, 233, 126, 122, 236, 29, 67, 96, 194,
   10, 39, 175, 204, 253, 159, 174, 11, 249, 27, 101, 197,
   82, 71, 51, 171, 143, 89, 61, 171, 205, 98, 179, 87,
   22, 57, 214, 36, 230, 81, 82, 171, 143, 83, 12, 53,
   159, 8, 97, 216, 7, 202, 13, 191, 80, 13, 106, 97,
   86, 163, 142, 8, 138, 34, 182, 94, 82, 188, 81, 77,
   22, 204, 248, 6, 129, 140, 233, 26, 183, 121, 55, 54,
   90, 249, 11, 191, 116, 163, 91, 230, 180, 11, 142, 237,
   242, 120, 94, 66, 135, 77]

/-- Key words of test vector 2. -/
def tv2_key : List Nat :=
  [0, 0, 0, 0,
   0, 0, 0, 0]

/-- Nonce words of test vector 2. -/
def tv2_nonce : List Nat := [0, 0, 0]

/-- Plaintext bytes of test vector 2. -/
def tv2_plain : List Nat :=
  [0, 0, 0, 0, 0, 0, 0, 0, 0, 0, 0, 0,
   0, 0, 0, 0, 0, 0, 0, 0, 0, 0, 0, 0,
   0, 0, 0, 0, 0, 0, 0, 0, 0, 0, 0, 0,
   0, 0, 0, 0, 0, 0, 0, 0, 0, 0, 0, 0,
   0, 0, 0, 0, 0, 0, 0, 0, 0, 0, 0, 0,
   0, 0, 0, 0]

/-- Expected ciphertext bytes of test vector 2. -/
def tv2_cipher : List Nat :=
  [118, 184, 224, 173, 160, 241, 61, 144, 64, 93, 106, 229,
   83, 134, 189, 40, 189, 210, 25, 184, 160, 141, 237, 26,
   168, 54, 239, 204, 139, 119, 13, 199, 218, 65, 89, 124,
   81, 87, 72, 141, 119, 36, 224, 63, 184, 216, 74, 55,
   106, 67, 184, 244, 21, 24, 161, 28, 195, 135, 182, 105,
   178, 238, 101, 134]

/-- Key words of test vector 3. -/
def tv3_key : List Nat :=
  [0, 0, 0, 0,
   0, 0, 0, 1]

/-- Nonce words of test vector 3. -/
def tv3_nonce : List Nat := [0, 0, 2]

/-- Plaintext bytes of test vector 3. -/
def tv3_plain : List Nat :=
  [65, 110, 121, 32, 115, 117, 98, 109, 105, 115, 115, 105,
   111, 110, 32, 116, 111, 32, 116, 104, 101, 32, 73, 69,
   84, 70, 32, 105, 110, 116, 101, 110, 100, 101, 100, 32,
   98, 121, 32, 116, 104, 101, 32, 67, 111, 110, 116, 114,
   105, 98, 117, 116, 111, 114, 32, 102, 111, 114, 32, 112,
   117, 98, 108, 105, 99, 97, 116, 105, 111, 110, 32, 97,
   115, 32, 97, 108, 108, 32, 111, 114, 32, 112, 97, 114,
   116, 32, 111, 102, 32, 97, 110, 32, 73, 69, 84, 70,
   32, 73, 110, 116, 101, 114, 110, 101, 116, 45, 68, 114,
   97, 102, 116, 32, 111, 114, 32, 82, 70, 67, 32, 97,
   110, 100, 32, 97, 110, 121, 32, 115, 116, 97, 116, 101,
   109, 101, 110, 116, 32, 109, 97, 100, 101, 32, 119, 105,
   116, 104, 105, 110, 32, 116, 104, 101, 32, 99, 111, 110,
   116, 101, 120, 116, 32, 111, 102, 32, 97, 110, 32, 73,
   69, 84, 70, 32, 97, 99, 116, 105, 118, 105, 116, 121,
   32, 105, 115, 32, 99, 111, 110, 115, 105, 100, 101, 114,
   101, 100, 32, 97, 110, 32, 34, 73, 69, 84, 70, 32,
   67, 111, 110, 116, 114, 105, 98, 117, 116, 105, 111, 110,
   34, 46, 32, 83, 117, 99, 104, 32, 115, 116, 97, 116,
   101, 109, 101, 110, 116, 115, 32, 105, 110, 99, 108, 117,
   100, 101, 32, 111, 114, 97, 108, 32, 115, 116, 97, 116,
   101, 109, 101, 110, 116, 115, 32, 105, 110, 32, 73, 69,
   84, 70, 32, 115, 101, 115, 115, 105, 111, 110, 115, 44,
   32, 97, 115, 32, 119, 101, 108, 108, 32, 97, 115, 32,
   119, 114, 105, 116, 116, 101, 110, 32, 97, 110, 100, 32,
   101, 108, 101, 99, 116, 114, 111, 110, 105, 99, 32, 99,
   111, 109, 109, 117, 110, 105, 99, 97, 116, 105, 111, 110,
   115, 32, 109, 97, 100, 101, 32, 97, 116, 32, 97, 110,
   121, 32, 116, 105, 109, 101, 32, 111, 114, 32, 112, 108,
   97, 99, 101, 44, 32, 119, 104, 105, 99, 104, 32, 97,
   114, 101, 32, 97, 100, 100, 114, 101, 115, 115, 101, 100,
   32, 116, 111]

/-- Expected ciphertext bytes of test vector 3. -/
def tv3_cipher : List Nat :=
  [163, 251, 240, 125, 243, 250, 47, 222, 79, 55, 108, 162,
   62, 130, 115, 112, 65, 96, 93, 159, 79, 79, 87, 189,
   140, 255, 44, 29, 75, 121, 85, 236, 42, 151, 148, 139,
   211, 114, 41, 21, 200, 243, 211, 55, 247, 211, 112, 5,
   14, 158, 150, 214, 71, 183, 195, 159, 86, 224, 49, 202,
   94, 182, 37, 13, 64, 66, 224, 39, 133, 236, 236, 250,
   75, 75, 181, 232, 234, 208, 68, 14, 32, 182, 232, 219,
   9, 216, 129, 167, 198, 19, 47, 66, 14, 82, 121, 80,
   66, 189, 250, 119, 115, 216, 169, 5, 20, 71, 179, 41,
   28, 225, 65, 28, 104, 4, 101, 85, 42, 166, 196, 5,
   183, 118, 77, 94, 135, 190, 168, 90, 208, 15, 132, 73,
   237, 143, 114, 208, 214, 98, 171, 5, 38, 145, 202, 102,
   66, 75, 200, 109, 45, 248, 14, 164, 31, 67, 171, 249,
   55, 211, 37, 157, 196, 178, 208, 223, 180, 138, 108, 145,
   57, 221, 215, 247, 105, 102, 233, 40, 230, 53, 85, 59,
   167, 108, 92, 135, 157, 123, 53, 212, 158, 178, 230, 43,
   8, 113, 205, 172, 99, 137, 57, 226, 94, 138, 30, 14,
   249, 213, 40, 15, 168, 202, 50, 139, 53, 28, 60, 118,
   89, 137, 203, 207, 61, 170, 139, 108, 204, 58, 175, 159,
   57, 121, 201, 43, 55, 32, 252, 136, 220, 149, 237, 132,
   161, 190, 5, 156, 100, 153, 185, 253, 162, 54, 231, 232,
   24, 176, 75, 11, 195, 156, 30, 135, 107, 25, 59, 254,
   85, 105, 117, 63, 136, 18, 140, 192, 138, 170, 155, 99,
   209, 161, 111, 128, 239, 37, 84, 215, 24, 156, 65, 31,
   88, 105, 202, 82, 197, 184, 63, 163, 111, 242, 22, 185,
   193, 211, 0, 98, 190, 188, 253, 45, 197, 188, 224, 145,
   25, 52, 253, 167, 154, 134, 246, 230, 152, 206, 215, 89,
   195, 255, 155, 100, 119, 51, 143, 61, 164, 249, 205, 133,
   20, 234, 153, 130, 204, 175, 179, 65, 178, 56, 77, 217,
   2, 243, 209, 171, 122, 198, 29, 210, 156, 111, 33, 186,
   91, 134, 47, 55, 48, 227, 124, 253, 196, 253, 128, 108,
   34, 242, 33]

/-- Key words of test vector 4. -/
def tv4_key : List Nat :=
  [479346853, 3948270474, 4080240774, 83277296,
   1194923969, 1076592649, 2647284924, 544241088]

/-- Nonce words of test vector 4. -/
def tv4_nonce : List Nat := [0, 0, 2]

/-- Plaintext bytes of test vector 4. -/
def tv4_plain : List Nat :=
  [39, 84, 119, 97, 115, 32, 98, 114, 105, 108, 108, 105,
   103, 44, 32, 97, 110, 100, 32, 116, 104, 101, 32, 115,
   108, 105, 116, 104, 121, 32, 116, 111, 118, 101, 115, 10,
   68, 105, 100, 32, 103, 121, 114, 101, 32, 97, 110, 100,
   32, 103, 105, 109, 98, 108, 101, 32, 105, 110, 32, 116,
   104, 101, 32, 119, 97, 98, 101, 58, 10, 65, 108, 108,
   32, 109, 105, 109, 115, 121, 32, 119, 101, 114, 101, 32,
   116, 104, 101, 32, 98, 111, 114, 111, 103, 111, 118, 101,
   115, 44, 10, 65, 110, 100, 32, 116, 104, 101, 32, 109,
   111, 109, 101, 32, 114, 97, 116, 104, 115, 32, 111, 117,
   116, 103, 114, 97, 98, 101, 46]

/-- Expected ciphertext bytes of test vector 4. -/
def tv4_cipher : List Nat :=
  [98, 230, 52, 127, 149, 237, 135, 164, 95, 250, 231, 66,
   111, 39, 161, 223, 95, 182, 145, 16, 4, 76, 13, 115,
   17, 142, 255, 169, 91, 1, 229, 207, 22, 109, 61, 242,
   215, 33, 202, 249, 178, 30, 95, 177, 76, 97, 104, 113,
   253, 132, 197, 79, 157, 101, 178, 131, 25, 108, 127, 228,
   246, 5, 83, 235, 243, 156, 100, 2, 196, 34, 52, 227,
   42, 53, 107, 62, 118, 67, 18, 166, 26, 85, 50, 5,
   87, 22, 234, 214, 150, 37, 104, 248, 125, 63, 63, 119,
   4, 198, 168, 209, 188, 209, 191, 77, 80, 214, 21, 75,
   109, 167, 49, 177, 135, 181, 141, 253, 114, 138, 250, 54,
   117, 122, 121, 122, 193, 136, 209]

/-- The scalar engine state after one block call (the returned keystream
discarded): the internal state as left for the next block. -/
def stepState (m : Chacha20.State) : Chacha20.State := (Chacha20.chacha20_block m).1

/-- The AVX engine state after one dual-block call. -/
def stepRows (st : Chacha20AVX.Rows) : Chacha20AVX.Rows := (Chacha20AVX.chacha20_block st).1

/-!
Helper lemmas.  First: the specification-side double round coincides with the
source double round, one `qrAt` application at a time (stepwise, to keep
kernel reduction linear).
-/

section QrAtSteps

variable (a0 a1 a2 a3 a4 a5 a6 a7 a8 a9 a10 a11 a12 a13 a14 a15 : Nat)

theorem qrAt_c0 :
    qrAt [a0,a1,a2,a3,a4,a5,a6,a7,a8,a9,a10,a11,a12,a13,a14,a15] 0 4 8 12 =
    [(Chacha20.quarter_round a0 a4 a8 a12).1, a1, a2, a3,
     (Chacha20.quarter_round a0 a4 a8 a12).2.1, a5, a6, a7,
     (Chacha20.quarter_round a0 a4 a8 a12).2.2.1, a9, a10, a11,
     (Chacha20.quarter_round a0 a4 a8 a12).2.2.2, a13, a14, a15] := rfl

theorem qrAt_c1 :
    qrAt [a0,a1,a2,a3,a4,a5,a6,a7,a8,a9,a10,a11,a12,a13,a14,a15] 1 5 9 13 =
    [a0, (Chacha20.quarter_round a1 a5 a9 a13).1, a2, a3,
     a4, (Chacha20.quarter_round a1 a5 a9 a13).2.1, a6, a7,
     a8, (Chacha20.quarter_round a1 a5 a9 a13).2.2.1, a10, a11,
     a12, (Chacha20.quarter_round a1 a5 a9 a13).2.2.2, a14, a15] := rfl

theorem qrAt_c2 :
    qrAt [a0,a1,a2,a3,a4,a5,a6,a7,a8,a9,a10,a11,a12,a13,a14,a15] 2 6 10 14 =
    [a0, a1, (Chacha20.quarter_round a2 a6 a10 a14).1, a3,
     a4, a5, (Chacha20.quarter_round a2 a6 a10 a14).2.1, a7,
     a8, a9, (Chacha20.quarter_round a2 a6 a10 a14).2.2.1, a11,
     a12, a13, (Chacha20.quarter_round a2 a6 a10 a14).2.2.2, a15] := rfl

theorem qrAt_c3 :
    qrAt [a0,a1,a2,a3,a4,a5,a6,a7,a8,a9,a10,a11,a12,a13,a14,a15] 3 7 11 15 =
    [a0, a1, a2, (Chacha20.quarter_round a3 a7 a11 a15).1,
     a4, a5, a6, (Chacha20.quarter_round a3 a7 a11 a15).2.1,
     a8, a9, a10, (Chacha20.quarter_round a3 a7 a11 a15).2.2.1,
     a12, a13, a14, (Chacha20.quarter_round a3 a7 a11 a15).2.2.2] := rfl

theorem qrAt_d0 :
    qrAt [a0,a1,a2,a3,a4,a5,a6,a7,a8,a9,a10,a11,a12,a13,a14,a15] 0 5 10 15 =
    [(Chacha20.quarter_round a0 a5 a10 a15).1, a1, a2, a3,
     a4, (Chacha20.quarter_round a0 a5 a10 a15).2.1, a6, a7,
     a8, a9, (Chacha20.quarter_round a0 a5 a10 a15).2.2.1, a11,
     a12, a13, a14, (Chacha20.quarter_round a0 a5 a10 a15).2.2.2] := rfl

theorem qrAt_d1 :
    qrAt [a0,a1,a2,a3,a4,a5,a6,a7,a8,a9,a10,a11,a12,a13,a14,a15] 1 6 11 12 =
    [a0, (Chacha20.quarter_round a1 a6 a11 a12).1, a2, a3,
     a4, a5, (Chacha20.quarter_round a1 a6 a11 a12).2.1, a7,
     a8, a9, a10, (Chacha20.quarter_round a1 a6 a11 a12).2.2.1,
     (Chacha20.quarter_round a1 a6 a11 a12).2.2.2, a13, a14, a15] := rfl

theorem qrAt_d2 :
    qrAt [a0,a1,a2,a3,a4,a5,a6,a7,a8,a9,a10,a11,a12,a13,a14,a15] 2 7 8 13 =
    [a0, a1, (Chacha20.quarter_round a2 a7 a8 a13).1, a3,
     a4, a5, a6, (Chacha20.quarter_round a2 a7 a8 a13).2.1,
     (Chacha20.quarter_round a2 a7 a8 a13).2.2.1, a9, a10, a11,
     a12, (Chacha20.quarter_round a2 a7 a8 a13).2.2.2, a14, a15] := rfl

theorem qrAt_d3 :
    qrAt [a0,a1,a2,a3,a4,a5,a6,a7,a8,a9,a10,a11,a12,a13,a14,a15] 3 4 9 14 =
    [a0, a1, a2, (Chacha20.quarter_round a3 a4 a9 a14).1,
     (Chacha20.quarter_round a3 a4 a9 a14).2.1, a5, a6, a7,
     a8, (Chacha20.quarter_round a3 a4 a9 a14).2.2.1, a10, a11,
     a12, a13, (Chacha20.quarter_round a3 a4 a9 a14).2.2.2, a15] := rfl

end QrAtSteps

/-- One specification-side double round equals one source double round. -/
theorem spec_dr_words (m : Chacha20.State) :
    spec_double_round m.words = (Chacha20.double_round m).words := by
  cases m
  rw [Chacha20.State.words, spec_double_round, qrAt_c0, qrAt_c1, qrAt_c2, qrAt_c3,
    qrAt_d0, qrAt_d1, qrAt_d2, qrAt_d3]
  rfl

/-- Iterated specification-side double rounds equal iterated source double
rounds. -/
theorem spec_dr_iterate (n : Nat) (m : Chacha20.State) :
    spec_double_round^[n] m.words = (Chacha20.double_round^[n] m).words := by
  induction n generalizing m with
  | zero => rfl
  | succ k ih =>
    rw [Function.iterate_succ_apply, Function.iterate_succ_apply,
      spec_dr_words, ih]

/-- The feed-forward matrix addition, viewed on the word lists. -/
theorem addState_words (x y : Chacha20.State) :
    (Chacha20.addState x y).words = List.zipWith add32 x.words y.words := by
  cases x; cases y; rfl

/-- Unfolding of the scalar block function. -/
theorem scalar_block_eq (m : Chacha20.State) :
    Chacha20.chacha20_block m =
      (bump m, Chacha20.addState (Chacha20.double_round^[10] (bump m)) (bump m)) := rfl

/-- The two chained counter pre-increments of the AVX engine equal the two
successive scalar pre-increments. -/
theorem bump2_decCtr (m : Chacha20.State) : bump2 (decCtr m) = bump m := by
  cases m
  simp only [bump2, decCtr, bump, add32, M32, Chacha20.State.mk.injEq, and_true, true_and]
  omega

/-- Incrementing the counter slot by two is incrementing it by one twice. -/
theorem bump2_eq (m : Chacha20.State) : bump2 m = bump (bump m) := by
  cases m
  simp only [bump2, bump, add32, M32, Chacha20.State.mk.injEq, and_true, true_and]
  omega

/-- Decrementing after two increments leaves one increment. -/
theorem decCtr_bump_bump (m : Chacha20.State) : decCtr (bump (bump m)) = bump m := by
  cases m
  simp only [decCtr, bump, add32, M32, Chacha20.State.mk.injEq, and_true, true_and]
  omega

/-- The counter updates do not touch the nonce words. -/
theorem row3Bounded_bump (m : Chacha20.State) (h : Row3Bounded m) : Row3Bounded (bump m) := h

theorem row3Bounded_bump2 (m : Chacha20.State) (h : Row3Bounded m) : Row3Bounded (bump2 m) := h

theorem row3Bounded_decCtr (m : Chacha20.State) (h : Row3Bounded m) : Row3Bounded (decCtr m) := by
  obtain ⟨h1, h2, h3⟩ := h
  cases m
  simp only [Row3Bounded, decCtr] at *
  exact ⟨h1, h2, h3⟩

/-- The byte-swap helper always produces a 32-bit value. -/
theorem little_endian_lt (x : Nat) : little_endian x < M32 := by
  have hM : M32 = 2 ^ 32 := by norm_num [M32]
  rw [little_endian, hM]
  refine Nat.or_lt_two_pow (Nat.or_lt_two_pow (Nat.or_lt_two_pow ?_ ?_) ?_) ?_
  · calc (x &&& 0xFF000000) >>> 24 ≤ x &&& 0xFF000000 := by
          rw [Nat.shiftRight_eq_div_pow]; exact Nat.div_le_self _ _
      _ ≤ 0xFF000000 := Nat.and_le_right
      _ < 2 ^ 32 := by norm_num
  · calc (x &&& 0x00FF0000) >>> 8 ≤ x &&& 0x00FF0000 := by
          rw [Nat.shiftRight_eq_div_pow]; exact Nat.div_le_self _ _
      _ ≤ 0x00FF0000 := Nat.and_le_right
      _ < 2 ^ 32 := by norm_num
  · calc (x &&& 0x0000FF00) <<< 8 = (x &&& 0x0000FF00) * 2 ^ 8 := Nat.shiftLeft_eq _ _
      _ ≤ 0x0000FF00 * 2 ^ 8 := Nat.mul_le_mul_right _ Nat.and_le_right
      _ < 2 ^ 32 := by norm_num
  · calc (x &&& 0x000000FF) <<< 24 = (x &&& 0x000000FF) * 2 ^ 24 := Nat.shiftLeft_eq _ _
      _ ≤ 0x000000FF * 2 ^ 24 := Nat.mul_le_mul_right _ Nat.and_le_right
      _ < 2 ^ 32 := by norm_num

/-- The freshly initialized scalar state has 32-bit nonce words. -/
theorem row3Bounded_init (key : List Nat) (bc : Nat) (nonce : List Nat) :
    Row3Bounded (Chacha20.init key bc nonce) :=
  ⟨little_endian_lt _, little_endian_lt _, little_endian_lt _⟩

/-! Scalar XOR-loop lemmas. -/

theorem xorStream_nil (w : List Nat) (i : Nat) : Chacha20.xorStream w [] i = [] := rfl

theorem xorStream_ge (w msg : List Nat) (i : Nat) (h : 64 ≤ i) :
    Chacha20.xorStream w msg i = [] := by
  cases msg with
  | nil => rfl
  | cons b rest => simp only [Chacha20.xorStream, if_neg (by omega : ¬ i < 64)]

theorem xorStream_length (w : List Nat) :
    ∀ (msg : List Nat) (i : Nat),
      (Chacha20.xorStream w msg i).length = min (64 - i) msg.length := by
  intro msg
  induction msg with
  | nil => intro i; simp [Chacha20.xorStream]
  | cons b rest ih =>
    intro i
    by_cases h : i < 64
    · simp only [Chacha20.xorStream, if_pos h, List.length_cons, ih]
      omega
    · simp only [Chacha20.xorStream, if_neg h, List.length_nil, List.length_cons]
      omega

theorem xorStream_append_left (w : List Nat) :
    ∀ (l1 l2 : List Nat) (i : Nat), 64 ≤ i + l1.length →
      Chacha20.xorStream w (l1 ++ l2) i = Chacha20.xorStream w l1 i := by
  intro l1
  induction l1 with
  | nil =>
    intro l2 i h
    simp only [List.length_nil, Nat.add_zero] at h
    simp only [List.nil_append]
    exact xorStream_ge w l2 i h
  | cons b rest ih =>
    intro l2 i h
    by_cases hi : i < 64
    · simp only [List.cons_append, Chacha20.xorStream, if_pos hi, List.append_eq]
      rw [ih l2 (i + 1) (by simp only [List.length_cons] at h; omega)]
    · simp only [List.cons_append, Chacha20.xorStream, if_neg hi]

/-- XORing twice with the same keystream byte gives back a byte. -/
theorem xor_byte_cancel (b s : Nat) (hb : b < 256) :
    (((b ^^^ s) % 256) ^^^ s) % 256 = b := by
  have h256 : (256 : Nat) = 2 ^ 8 := by norm_num
  apply Nat.eq_of_testBit_eq
  intro i
  rw [h256, Nat.testBit_mod_two_pow, Nat.testBit_xor, Nat.testBit_mod_two_pow,
    Nat.testBit_xor]
  by_cases h : i < 8
  · rw [decide_eq_true h]
    simp only [Bool.true_and]
    cases hbb : b.testBit i <;> cases hss : s.testBit i <;> rfl
  · rw [decide_eq_false h]
    simp only [Bool.false_and]
    have hb' : b.testBit i = false :=
      Nat.testBit_lt_two_pow
        (lt_of_lt_of_le hb
          (by rw [h256]; exact Nat.pow_le_pow_right (by norm_num) (by omega)))
    rw [hb']

/-- Applying the XOR loop twice with the same keystream inverts it on the
first 64-i bytes, provided the input either fills the block or nothing
follows it. -/
theorem xorStream_invol (w : List Nat) :
    ∀ (msg : List Nat) (i : Nat) (tail : List Nat),
      (∀ x ∈ msg, x < 256) → (64 ≤ i + msg.length ∨ tail = []) →
      Chacha20.xorStream w (Chacha20.xorStream w msg i ++ tail) i =
        msg.take (64 - i) := by
  intro msg
  induction msg with
  | nil =>
    intro i tail hb hcond
    simp only [Chacha20.xorStream, List.nil_append, List.take_nil]
    rcases hcond with h | h
    · exact xorStream_ge w tail i (by simpa using h)
    · rw [h]; rfl
  | cons b rest ih =>
    intro i tail hb hcond
    by_cases hi : i < 64
    · simp only [Chacha20.xorStream, if_pos hi, List.cons_append]
      rw [xor_byte_cancel b _ (hb b (by simp))]
      rw [ih (i + 1) tail (fun x hx => hb x (by simp [hx]))
        (by rcases hcond with h | h
            · left; simp only [List.length_cons] at h ⊢; omega
            · right; exact h)]
      rw [show 64 - i = (64 - (i + 1)) + 1 by omega, List.take_succ_cons]
    · rw [xorStream_ge w _ i (by omega), show 64 - i = 0 by omega, List.take_zero]

/-! Scalar encrypt-loop lemmas. -/

theorem encryptLoop_nil (m : Chacha20.State) : Chacha20.encryptLoop m [] = (m, []) := by
  simp [Chacha20.encryptLoop]

theorem encryptLoop_cons (m : Chacha20.State) (b : Nat) (rest : List Nat) :
    Chacha20.encryptLoop m (b :: rest) =
      ((Chacha20.encryptLoop (bump m) ((b :: rest).drop 64)).1,
        Chacha20.xorStream
          (Chacha20.addState (Chacha20.double_round^[10] (bump m)) (bump m)).words
          (b :: rest) 0 ++
        (Chacha20.encryptLoop (bump m) ((b :: rest).drop 64)).2) := by
  rw [Chacha20.encryptLoop]
  simp only [scalar_block_eq]

theorem encryptLoop_length_fuel :
    ∀ (n : Nat) (msg : List Nat), msg.length ≤ n → ∀ m : Chacha20.State,
      ((Chacha20.encryptLoop m msg).2).length = msg.length := by
  intro n
  induction n with
  | zero =>
    intro msg h m
    have hmsg : msg = [] := List.length_eq_zero.mp (by omega)
    subst hmsg
    simp [encryptLoop_nil]
  | succ n ih =>
    intro msg h m
    cases msg with
    | nil => simp [encryptLoop_nil]
    | cons b rest =>
      rw [encryptLoop_cons]
      simp only [List.length_append, xorStream_length]
      rw [ih ((b :: rest).drop 64)
        (by simp only [List.length_drop, List.length_cons] at *; omega)]
      simp only [List.length_drop, List.length_cons]
      omega

/-- Output length always equals input length. -/
theorem encryptLoop_length (m : Chacha20.State) (msg : List Nat) :
    ((Chacha20.encryptLoop m msg).2).length = msg.length :=
  encryptLoop_length_fuel msg.length msg le_rfl m

/-- The final state after encrypting: the counter slot has advanced by one
per 64-byte chunk consumed; nothing else changed. -/
theorem encryptLoop_fst_fuel :
    ∀ (n : Nat) (msg : List Nat), msg.length ≤ n → ∀ m : Chacha20.State, m.s12 < M32 →
      (Chacha20.encryptLoop m msg).1 =
        { m with s12 := (m.s12 + (msg.length + 63) / 64) % M32 } := by
  intro n
  induction n with
  | zero =>
    intro msg h m hm
    have hmsg : msg = [] := List.length_eq_zero.mp (by omega)
    subst hmsg
    rw [encryptLoop_nil]
    cases m
    simp only [List.length_nil, Chacha20.State.mk.injEq, and_true, true_and]
    simp only [M32] at *
    omega
  | succ n ih =>
    intro msg h m hm
    cases msg with
    | nil =>
      rw [encryptLoop_nil]
      cases m
      simp only [List.length_nil, Chacha20.State.mk.injEq, and_true, true_and]
      simp only [M32] at *
      omega
    | cons b rest =>
      rw [encryptLoop_cons]
      rw [ih ((b :: rest).drop 64)
        (by simp only [List.length_drop, List.length_cons] at *; omega)
        (bump m)
        (by simp only [bump, add32]; exact Nat.mod_lt _ (by norm_num [M32]))]
      cases m
      simp only [bump, add32, List.length_drop, List.length_cons,
        Chacha20.State.mk.injEq, and_true, true_and]
      simp only [M32]
      omega

/-- Splitting a message at a 64-byte boundary and encrypting the pieces with
the carried-over engine state reproduces the single-call result. -/
theorem encryptLoop_append_fuel :
    ∀ (n : Nat) (msg1 : List Nat), msg1.length ≤ n → 64 ∣ msg1.length →
      ∀ (m : Chacha20.State) (msg2 : List Nat),
      Chacha20.encryptLoop m (msg1 ++ msg2) =
        ((Chacha20.encryptLoop (Chacha20.encryptLoop m msg1).1 msg2).1,
         (Chacha20.encryptLoop m msg1).2 ++
           (Chacha20.encryptLoop (Chacha20.encryptLoop m msg1).1 msg2).2) := by
  intro n
  induction n with
  | zero =>
    intro msg1 h _ m msg2
    have hmsg : msg1 = [] := List.length_eq_zero.mp (by omega)
    subst hmsg
    simp [encryptLoop_nil]
  | succ n ih =>
    intro msg1 h hdvd m msg2
    cases msg1 with
    | nil => simp [encryptLoop_nil]
    | cons b rest =>
      have hlen : 64 ≤ (b :: rest).length := Nat.le_of_dvd (by simp) hdvd
      rw [List.cons_append, encryptLoop_cons m b (rest ++ msg2),
        encryptLoop_cons m b rest, ← List.cons_append,
        xorStream_append_left _ (b :: rest) msg2 0 (by omega),
        List.drop_append_of_le_length hlen,
        ih ((b :: rest).drop 64)
          (by simp only [List.length_drop, List.length_cons] at *; omega)
          (by rcases hdvd with ⟨k, hk⟩
              exact ⟨k - 1, by simp only [List.length_drop, hk]; omega⟩)
          (bump m) msg2]
      simp [List.append_assoc]

/-- Encrypting the encryption with a fresh engine in the same state restores
the message. -/
theorem encryptLoop_invol_fuel :
    ∀ (n : Nat) (msg : List Nat), msg.length ≤ n → ∀ m : Chacha20.State,
      (∀ x ∈ msg, x < 256) →
      (Chacha20.encryptLoop m (Chacha20.encryptLoop m msg).2).2 = msg := by
  intro n
  induction n with
  | zero =>
    intro msg h m _
    have hmsg : msg = [] := List.length_eq_zero.mp (by omega)
    subst hmsg
    simp [encryptLoop_nil]
  | succ n ih =>
    intro msg h m hb
    cases msg with
    | nil => simp [encryptLoop_nil]
    | cons b rest =>
      rw [encryptLoop_cons m b rest]
      set w := (Chacha20.addState (Chacha20.double_round^[10] (bump m)) (bump m)).words with hw
      set xs1 := Chacha20.xorStream w (b :: rest) 0 with hxs1
      set ys1 := (Chacha20.encryptLoop (bump m) ((b :: rest).drop 64)).2 with hys1
      have hxs1len : xs1.length = min 64 (b :: rest).length := by
        rw [hxs1, xorStream_length]
      have hcondtail : 64 ≤ (b :: rest).length ∨ ys1 = [] := by
        by_cases hL : 64 ≤ (b :: rest).length
        · exact Or.inl hL
        · refine Or.inr ?_
          rw [hys1, List.drop_eq_nil_of_le (by omega), encryptLoop_nil]
      rcases hX : xs1 ++ ys1 with _ | ⟨x, X⟩
      · exfalso
        have : xs1 = [] := by
          rcases List.append_eq_nil.mp hX with ⟨h1, _⟩
          exact h1
        rw [this] at hxs1len
        simp at hxs1len
        omega
      · rw [encryptLoop_cons m x X, ← hX]
        rw [show Chacha20.xorStream w (xs1 ++ ys1) 0 =
              (b :: rest).take (64 - 0) from by
            rw [hxs1]
            exact xorStream_invol w (b :: rest) 0 ys1 hb (by simpa using hcondtail)]
        by_cases hL : 64 ≤ (b :: rest).length
        · have hxs64 : xs1.length = 64 := by omega
          have hdrop : (xs1 ++ ys1).drop 64 = ys1 := by
            rw [show (64 : Nat) = xs1.length from hxs64.symm, List.drop_left]
          rw [hdrop, hys1]
          rw [ih ((b :: rest).drop 64)
            (by simp only [List.length_drop, List.length_cons] at *; omega)
            (bump m)
            (fun x hx => hb x ((List.drop_sublist 64 (b :: rest)).mem hx))]
          simp only [Nat.sub_zero]
          exact List.take_append_drop 64 (b :: rest)
        · have hys : ys1 = [] := by
            rw [hys1, List.drop_eq_nil_of_le (by omega), encryptLoop_nil]
          have hdrop : (xs1 ++ ys1).drop 64 = [] := by
            apply List.drop_eq_nil_of_le
            simp only [hys, List.append_nil]
            omega
          rw [hdrop, encryptLoop_nil]
          simp only [Nat.sub_zero, List.append_nil]
          exact List.take_of_length_le (by omega)

/-- The while loop agrees with its structurally recursive fuel variant. -/
theorem encryptLoop_eq_fuel :
    ∀ (n : Nat) (msg : List Nat), msg.length ≤ n → ∀ m : Chacha20.State,
      Chacha20.encryptLoop m msg = Chacha20.encryptFuel n m msg := by
  intro n
  induction n with
  | zero =>
    intro msg h m
    have hmsg : msg = [] := List.length_eq_zero.mp (by omega)
    subst hmsg
    rw [encryptLoop_nil]
    rfl
  | succ n ih =>
    intro msg h m
    cases msg with
    | nil => rw [encryptLoop_nil]; rfl
    | cons b rest =>
      rw [Chacha20.encryptLoop, Chacha20.encryptFuel]
      rw [← ih ((b :: rest).drop 64)
        (by simp only [List.length_drop, List.length_cons] at *; omega)]

/-!
Correspondence between the AVX engine and two scalar engines: one AVX double
round acts on the packed state exactly as one scalar double round on each
half, the feed-forward addition and the counter increment respect the
packing, and the initial AVX state packs the two scalar initial states.
-/

/-- One AVX double round equals a scalar double round on each packed half. -/
theorem dr_embed (h l : Chacha20.State) :
    Chacha20AVX.double_round (embed h l) =
      embed (Chacha20.double_round h) (Chacha20.double_round l) := by
  cases h; cases l; rfl

/-- Iterated version of `dr_embed`. -/
theorem iterate_dr_embed (n : Nat) (h l : Chacha20.State) :
    Chacha20AVX.double_round^[n] (embed h l) =
      embed (Chacha20.double_round^[n] h) (Chacha20.double_round^[n] l) := by
  induction n generalizing h l with
  | zero => rfl
  | succ k ih =>
    rw [Function.iterate_succ_apply, Function.iterate_succ_apply,
      Function.iterate_succ_apply, dr_embed, ih]

/-- The lane-wise feed-forward addition respects the packing. -/
theorem add_embed (a b c d : Chacha20.State) :
    (⟨Chacha20AVX.mm256_add_epi32 (embed a b).r0 (embed c d).r0,
      Chacha20AVX.mm256_add_epi32 (embed a b).r1 (embed c d).r1,
      Chacha20AVX.mm256_add_epi32 (embed a b).r2 (embed c d).r2,
      Chacha20AVX.mm256_add_epi32 (embed a b).r3 (embed c d).r3⟩ : Chacha20AVX.Rows) =
      embed (Chacha20.addState a c) (Chacha20.addState b d) := by
  cases a; cases b; cases c; cases d; rfl

/-- Adding the increment vector (2 on the counter lanes, 0 elsewhere) to
row 3 advances both packed counters by two. -/
theorem inc_embed (h l : Chacha20.State) (Hh : Row3Bounded h) (Hl : Row3Bounded l) :
    ({ embed h l with
        r3 := Chacha20AVX.mm256_add_epi32 (embed h l).r3
          (Chacha20AVX.mm256_set_epi32 2 0 0 0 2 0 0 0) } : Chacha20AVX.Rows) =
      embed (bump2 h) (bump2 l) := by
  obtain ⟨h13, h14, h15⟩ := Hh
  obtain ⟨l13, l14, l15⟩ := Hl
  cases h; cases l
  simp only [Row3Bounded, M32] at *
  simp only [embed, bump2, Chacha20AVX.mm256_add_epi32, Chacha20AVX.mm256_set_epi32,
    add32, M32, Chacha20AVX.Rows.mk.injEq, Chacha20AVX.V8.mk.injEq, true_and, and_true]
  omega

/-- One AVX dual-block call on a packed state equals two scalar block
computations on the halves. -/
theorem block_embed (h l : Chacha20.State) (Hh : Row3Bounded h) (Hl : Row3Bounded l) :
    Chacha20AVX.chacha20_block (embed h l) =
      (embed (bump2 h) (bump2 l),
       embed (Chacha20.addState (Chacha20.double_round^[10] (bump2 h)) (bump2 h))
             (Chacha20.addState (Chacha20.double_round^[10] (bump2 l)) (bump2 l))) := by
  have hst1 := inc_embed h l Hh Hl
  rw [show Chacha20AVX.chacha20_block (embed h l) =
        (fun st1 : Chacha20AVX.Rows =>
          (st1,
           (⟨Chacha20AVX.mm256_add_epi32 (Chacha20AVX.double_round^[10] st1).r0 st1.r0,
             Chacha20AVX.mm256_add_epi32 (Chacha20AVX.double_round^[10] st1).r1 st1.r1,
             Chacha20AVX.mm256_add_epi32 (Chacha20AVX.double_round^[10] st1).r2 st1.r2,
             Chacha20AVX.mm256_add_epi32 (Chacha20AVX.double_round^[10] st1).r3 st1.r3⟩ :
            Chacha20AVX.Rows)))
          ({ embed h l with
              r3 := Chacha20AVX.mm256_add_epi32 (embed h l).r3
                (Chacha20AVX.mm256_set_epi32 2 0 0 0 2 0 0 0) }) from rfl]
  rw [hst1]
  simp only []
  rw [iterate_dr_embed, add_embed]

/-- The AVX `init` packs the scalar initial state (high half one counter
behind, matching the pre-increment by two). -/
theorem init_embed (key : List Nat) (bc : Nat) (nonce : List Nat) :
    Chacha20AVX.init key bc nonce =
      embed (decCtr (Chacha20.init key ((bc + (M32 - 1)) % M32) nonce))
            (Chacha20.init key ((bc + (M32 - 1)) % M32) nonce) := by
  simp only [Chacha20AVX.init, Chacha20.init, decCtr, embed,
    Chacha20AVX.mm256_set_epi32, Chacha20AVX.Rows.mk.injEq, Chacha20AVX.V8.mk.injEq,
    true_and, and_true, M32]
  omega

/-!
Closed forms for the counters of the AVX XOR loop, and the per-iteration
step lemma.
-/

theorem upd_steps : ∀ i : Nat, i < 128 →
    Chacha20AVX.upd (rowPre i) (corrPre i) (arrPre i) =
      ((i / 16) % 4, corrPre (i + 1), i % 16) := by decide

theorem arrPre_succ : ∀ i : Nat, i < 128 → arrPre (i + 1) = i % 16 + 1 := by decide

theorem rowPre_succ : ∀ i : Nat, i < 128 → rowPre (i + 1) = (i / 16) % 4 := by decide

theorem col_formula : ∀ i : Nat, i < 128 →
    7 - (i % 16) / 4 - corrPre (i + 1) = (if i < 64 then 7 else 3) - (i / 4) % 4 := by
  decide

/-- One iteration of the AVX XOR loop at stream index i, with the counters in
their reachable configuration. -/
theorem xorLoop_step (sa : List (List Nat)) (b : Nat) (rest : List Nat) (i : Nat)
    (hi : i < 128) :
    Chacha20AVX.xorLoop sa (b :: rest) i (rowPre i) (corrPre i) (arrPre i) =
      ((b ^^^ (((sa.getD ((i / 16) % 4) []).getD
          ((if i < 64 then 7 else 3) - (i / 4) % 4) 0) >>> (8 * (i % 4)))) % 256) ::
        Chacha20AVX.xorLoop sa rest (i + 1)
          (rowPre (i + 1)) (corrPre (i + 1)) (arrPre (i + 1)) := by
  simp only [Chacha20AVX.xorLoop, if_pos hi, upd_steps i hi]
  rw [col_formula i hi, rowPre_succ i hi, arrPre_succ i hi]

/-- Word selected by the AVX extraction for the first 64 bytes: the high
half packs the first block. -/
theorem stream_word_hi (S1 S2 : Chacha20.State) :
    ∀ q : Nat, q < 16 →
      ((Chacha20AVX.streamArr (embed S1 S2)).getD ((q / 4) % 4) []).getD (7 - q % 4) 0 =
        S1.words.getD q 0 := by
  intro q hq
  interval_cases q <;> rfl

/-- Word selected by the AVX extraction for bytes 64..127: the low half
packs the second block. -/
theorem stream_word_lo (S1 S2 : Chacha20.State) :
    ∀ q : Nat, q < 16 →
      ((Chacha20AVX.streamArr (embed S1 S2)).getD ((q / 4) % 4) []).getD (3 - q % 4) 0 =
        S2.words.getD q 0 := by
  intro q hq
  interval_cases q <;> rfl

/-- The AVX extraction reads, at stream index i, exactly byte i of the
128-byte concatenation of the two packed keystream blocks. -/
theorem stream_bridge (S1 S2 : Chacha20.State) (i : Nat) (hi : i < 128) :
    ((Chacha20AVX.streamArr (embed S1 S2)).getD ((i / 16) % 4) []).getD
        ((if i < 64 then 7 else 3) - (i / 4) % 4) 0 =
      if i < 64 then S1.words.getD (i / 4) 0 else S2.words.getD ((i - 64) / 4) 0 := by
  by_cases h64 : i < 64
  · rw [if_pos h64, if_pos h64, show i / 16 = i / 4 / 4 from by omega]
    exact stream_word_hi S1 S2 (i / 4) (by omega)
  · rw [if_neg h64, if_neg h64,
      show (i / 16) % 4 = ((i - 64) / 4 / 4) % 4 from by omega,
      show (i / 4) % 4 = ((i - 64) / 4) % 4 from by omega]
    exact stream_word_lo S1 S2 ((i - 64) / 4) (by omega)

/-- Bytes 64.. of one AVX XOR-loop pass equal the scalar XOR loop on the
second packed block. -/
theorem xorLoop_hi (S1 S2 : Chacha20.State) :
    ∀ (msg : List Nat) (j : Nat), j ≤ 64 →
      Chacha20AVX.xorLoop (Chacha20AVX.streamArr (embed S1 S2)) msg (64 + j)
        (rowPre (64 + j)) (corrPre (64 + j)) (arrPre (64 + j)) =
      Chacha20.xorStream S2.words msg j := by
  intro msg
  induction msg with
  | nil => intro j hj; rfl
  | cons b rest ih =>
    intro j hj
    by_cases hj64 : j < 64
    · rw [xorLoop_step _ b rest (64 + j) (by omega),
        stream_bridge S1 S2 (64 + j) (by omega),
        if_neg (by omega : ¬ 64 + j < 64),
        show 64 + j - 64 = j from by omega,
        show (64 + j) % 4 = j % 4 from by omega,
        show 64 + j + 1 = 64 + (j + 1) from by omega,
        ih (j + 1) (by omega)]
      rw [show Chacha20.xorStream S2.words (b :: rest) j =
            ((b ^^^ (S2.words.getD (j / 4) 0 >>> (8 * (j % 4)))) % 256) ::
              Chacha20.xorStream S2.words rest (j + 1) from by
          rw [Chacha20.xorStream, if_pos hj64]]
    · have hj' : j = 64 := by omega
      subst hj'
      rw [Chacha20AVX.xorLoop, if_neg (by omega : ¬ (64 + 64 < 128)),
        xorStream_ge S2.words (b :: rest) 64 le_rfl]

/-- One full AVX XOR-loop pass from index i (in the first half) equals the
scalar XOR loop on the first packed block followed by the scalar XOR loop on
the second packed block. -/
theorem xorLoop_lo (S1 S2 : Chacha20.State) :
    ∀ (msg : List Nat) (i : Nat), i ≤ 64 →
      Chacha20AVX.xorLoop (Chacha20AVX.streamArr (embed S1 S2)) msg i
        (rowPre i) (corrPre i) (arrPre i) =
      Chacha20.xorStream S1.words msg i ++
        Chacha20.xorStream S2.words (msg.drop (64 - i)) 0 := by
  intro msg
  induction msg with
  | nil =>
    intro i hi
    simp only [List.drop_nil]
    rfl
  | cons b rest ih =>
    intro i hi
    by_cases hlt : i < 64
    · rw [xorLoop_step _ b rest i (by omega), stream_bridge S1 S2 i (by omega),
        if_pos hlt, ih (i + 1) (by omega)]
      rw [show Chacha20.xorStream S1.words (b :: rest) i =
            ((b ^^^ (S1.words.getD (i / 4) 0 >>> (8 * (i % 4)))) % 256) ::
              Chacha20.xorStream S1.words rest (i + 1) from by
          rw [Chacha20.xorStream, if_pos hlt]]
      rw [show (b :: rest).drop (64 - i) = rest.drop (64 - (i + 1)) from by
          rw [show 64 - i = (64 - (i + 1)) + 1 from by omega, List.drop_succ_cons]]
      rw [List.cons_append]
    · have hi' : i = 64 := by omega
      subst hi'
      have h0 := xorLoop_hi S1 S2 (b :: rest) 0 (by omega)
      simp only [Nat.add_zero] at h0
      rw [h0, xorStream_ge S1.words (b :: rest) 64 le_rfl]
      simp only [Nat.sub_self, List.drop_zero, List.nil_append]

theorem avxLoop_nil (st : Chacha20AVX.Rows) :
    Chacha20AVX.encryptLoop st [] = (st, []) := by
  simp [Chacha20AVX.encryptLoop]

/-- One iteration of the AVX while loop on a packed state, expressed through
the two scalar block computations. -/
theorem avxLoop_cons_embed (m : Chacha20.State) (Hm : Row3Bounded m)
    (b : Nat) (rest : List Nat) :
    Chacha20AVX.encryptLoop (embed (decCtr m) m) (b :: rest) =
      ((Chacha20AVX.encryptLoop (embed (bump m) (bump (bump m)))
          ((b :: rest).drop 128)).1,
        Chacha20AVX.xorLoop
          (Chacha20AVX.streamArr
            (embed (Chacha20.addState (Chacha20.double_round^[10] (bump m)) (bump m))
                   (Chacha20.addState (Chacha20.double_round^[10] (bump (bump m)))
                     (bump (bump m)))))
          (b :: rest) 0 0 0 0 ++
        (Chacha20AVX.encryptLoop (embed (bump m) (bump (bump m)))
          ((b :: rest).drop 128)).2) := by
  rw [Chacha20AVX.encryptLoop]
  simp only [block_embed (decCtr m) m (row3Bounded_decCtr m Hm) Hm]
  rw [bump2_decCtr]
  rw [bump2_eq]

/-- The AVX while loop produces the same output bytes as the scalar while
loop, whenever the AVX state packs the scalar state (low half) together
with its one-behind copy (high half). -/
theorem loop_equiv_fuel :
    ∀ (n : Nat) (msg : List Nat), msg.length ≤ n →
      ∀ m : Chacha20.State, Row3Bounded m →
      (Chacha20AVX.encryptLoop (embed (decCtr m) m) msg).2 =
        (Chacha20.encryptLoop m msg).2 := by
  intro n
  induction n with
  | zero =>
    intro msg h m _
    have hmsg : msg = [] := List.length_eq_zero.mp (by omega)
    subst hmsg
    rw [avxLoop_nil, encryptLoop_nil]
  | succ n ih =>
    intro msg h m Hm
    cases msg with
    | nil => rw [avxLoop_nil, encryptLoop_nil]
    | cons b rest =>
      rw [avxLoop_cons_embed m Hm b rest, encryptLoop_cons m b rest]
      have hlo := xorLoop_lo
        (Chacha20.addState (Chacha20.double_round^[10] (bump m)) (bump m))
        (Chacha20.addState (Chacha20.double_round^[10] (bump (bump m))) (bump (bump m)))
        (b :: rest) 0 (by omega)
      rw [show rowPre 0 = 0 from rfl, show corrPre 0 = 0 from rfl,
        show arrPre 0 = 0 from rfl, show (64 : Nat) - 0 = 64 from rfl] at hlo
      rw [hlo]
      rcases le_or_lt (b :: rest).length 64 with hle | hgt
      · have hd64 : (b :: rest).drop 64 = [] := List.drop_eq_nil_of_le (by omega)
        have hd128 : (b :: rest).drop 128 = [] := List.drop_eq_nil_of_le (by omega)
        rw [hd64, hd128, avxLoop_nil, encryptLoop_nil, xorStream_nil]
        simp only [List.append_nil]
      · rcases hd : (b :: rest).drop 64 with _ | ⟨c, rest2⟩
        · exfalso
          have hlen := congrArg List.length hd
          simp only [List.length_drop, List.length_nil] at hlen
          omega
        · rw [encryptLoop_cons (bump m) c rest2, ← hd, List.drop_drop,
            show (64 : Nat) + 64 = 128 from by norm_num]
          rw [show embed (bump m) (bump (bump m)) =
                embed (decCtr (bump (bump m))) (bump (bump m)) from by
              rw [decCtr_bump_bump]]
          rw [ih ((b :: rest).drop 128)
            (by simp only [List.length_drop]; omega)
            (bump (bump m))
            (row3Bounded_bump _ (row3Bounded_bump _ Hm))]
          simp only [List.append_assoc]

/-!
Claim theorems.
-/

/-- C1: a freshly constructed scalar engine, given each RFC 8439 test
vector's big-endian key words, decimal counter and big-endian nonce words,
returns from one encrypt call exactly the vector's ciphertext bytes: the
`000102...1e1f` key with counter 1 and nonce `000000000000004a00000000` on
the "Ladies and Gentlemen..." plaintext yields the ciphertext starting
`6e 2e 35 9a 25 68 f9 80`, the all-zero key and nonce with counter 0 on 64
zero bytes yields the keystream starting `76 b8 e0 ad a0 f1 3d 90`, and the
two additional IETF vectors of the test corpus match bit-exactly as well. -/
theorem claim_C1_rfc_vectors :
    Chacha20.transform tv1_key 1 tv1_nonce tv1_plain = tv1_cipher ∧
    Chacha20.transform tv2_key 0 tv2_nonce tv2_plain = tv2_cipher ∧
    Chacha20.transform tv3_key 1 tv3_nonce tv3_plain = tv3_cipher ∧
    Chacha20.transform tv4_key 42 tv4_nonce tv4_plain = tv4_cipher := by
  refine ⟨?_, ?_, ?_, ?_⟩ <;>
    · simp only [Chacha20.transform, Chacha20.Engine.encrypt]
      rw [encryptLoop_eq_fuel _ _ le_rfl]
      decide

/-- C2: for every key, nonce, initial counter and message, a freshly
constructed AVX dual-block engine's encrypt returns bytes bit-identical to a
freshly constructed scalar engine's encrypt on the same inputs, for all
counters (including 0, 1 and 2^32-2) and message lengths (including partial
and multi-block ones). -/
theorem claim_C2_scalar_vector_equiv (key nonce msg : List Nat) (block_count : Nat)
    (_hk : key.length = 8) (_hn : nonce.length = 3) :
    ((Chacha20AVX.construct key block_count nonce).encrypt msg).2 =
      ((Chacha20.construct key block_count nonce).encrypt msg).2 := by
  simp only [Chacha20AVX.construct, Chacha20.construct, Chacha20AVX.Engine.encrypt,
    Chacha20.Engine.encrypt]
  rw [init_embed]
  exact loop_equiv_fuel msg.length msg le_rfl _ (row3Bounded_init _ _ _)

theorem claim_C2_witness :
    ([0, 0, 0, 0, 0, 0, 0, 0] : List Nat).length = 8 ∧
    ([0, 0, 0] : List Nat).length = 3 ∧
    ((Chacha20AVX.construct [0, 0, 0, 0, 0, 0, 0, 0] 1 [0, 0, 0]).encrypt [1, 2, 3]).2 =
      ((Chacha20.construct [0, 0, 0, 0, 0, 0, 0, 0] 1 [0, 0, 0]).encrypt [1, 2, 3]).2 :=
  ⟨rfl, rfl, claim_C2_scalar_vector_equiv [0, 0, 0, 0, 0, 0, 0, 0] [0, 0, 0] [1, 2, 3] 1 rfl rfl⟩

/-- Counter slot value after iterating scalar block calls. -/
theorem stepState_s12_iter :
    ∀ (N : Nat) (m : Chacha20.State), m.s12 < M32 →
      (stepState^[N] m).s12 = (m.s12 + N) % M32 := by
  intro N
  induction N with
  | zero =>
    intro m hm
    simp only [Function.iterate_zero, id_eq]
    simp only [M32] at *
    omega
  | succ k ih =>
    intro m hm
    rw [Function.iterate_succ_apply]
    have hstep : (stepState m).s12 = add32 m.s12 1 := rfl
    rw [ih (stepState m) (by rw [hstep]; exact Nat.mod_lt _ (by norm_num [M32]))]
    rw [hstep]
    simp only [add32, M32]
    omega

/-- High-half counter lane after iterating AVX dual-block calls. -/
theorem stepRows_l7_iter :
    ∀ (N : Nat) (st : Chacha20AVX.Rows), st.r3.l7 < M32 →
      (stepRows^[N] st).r3.l7 = (st.r3.l7 + 2 * N) % M32 := by
  intro N
  induction N with
  | zero =>
    intro st hst
    simp only [Function.iterate_zero, id_eq]
    simp only [M32] at *
    omega
  | succ k ih =>
    intro st hst
    rw [Function.iterate_succ_apply]
    have hstep : (stepRows st).r3.l7 = add32 st.r3.l7 2 := rfl
    rw [ih (stepRows st) (by rw [hstep]; exact Nat.mod_lt _ (by norm_num [M32]))]
    rw [hstep]
    simp only [add32, M32]
    omega

/-- Low-half counter lane after iterating AVX dual-block calls. -/
theorem stepRows_l3_iter :
    ∀ (N : Nat) (st : Chacha20AVX.Rows), st.r3.l3 < M32 →
      (stepRows^[N] st).r3.l3 = (st.r3.l3 + 2 * N) % M32 := by
  intro N
  induction N with
  | zero =>
    intro st hst
    simp only [Function.iterate_zero, id_eq]
    simp only [M32] at *
    omega
  | succ k ih =>
    intro st hst
    rw [Function.iterate_succ_apply]
    have hstep : (stepRows st).r3.l3 = add32 st.r3.l3 2 := rfl
    rw [ih (stepRows st) (by rw [hstep]; exact Nat.mod_lt _ (by norm_num [M32]))]
    rw [hstep]
    simp only [add32, M32]
    omega

/-- C3: for an engine constructed with counter argument c, the state matrix
handed to the permutation for the N-th keystream block (counting from 0) has
word 12 equal to (c + N) mod 2^32: the constructor's counter denotes the
first block emitted and every following block uses a counter one larger.
For the scalar engine the N-th block is produced by the (N+1)-st
pre-increment; for the AVX engine the k-th dual call permutes a state whose
high-half counter lane is c + 2k and whose low-half lane is c + 2k + 1,
covering blocks 2k and 2k+1. -/
theorem claim_C3_counter_invariant (key nonce : List Nat) (c N : Nat) :
    ((Chacha20.chacha20_block
        (stepState^[N] (Chacha20.construct key c nonce).internal_state)).1).s12 =
      (c + N) % M32 ∧
    ((Chacha20AVX.chacha20_block
        (stepRows^[N] (Chacha20AVX.construct key c nonce).internal_state)).1).r3.l7 =
      (c + 2 * N) % M32 ∧
    ((Chacha20AVX.chacha20_block
        (stepRows^[N] (Chacha20AVX.construct key c nonce).internal_state)).1).r3.l3 =
      (c + 2 * N + 1) % M32 := by
  refine ⟨?_, ?_, ?_⟩
  · have hbase : (Chacha20.construct key c nonce).internal_state.s12 =
        (c + (M32 - 1)) % M32 := rfl
    have hperm : ((Chacha20.chacha20_block
        (stepState^[N] (Chacha20.construct key c nonce).internal_state)).1).s12 =
        add32 ((stepState^[N] (Chacha20.construct key c nonce).internal_state)).s12 1 := rfl
    rw [hperm, stepState_s12_iter N _ (by rw [hbase]; exact Nat.mod_lt _ (by norm_num [M32])),
      hbase]
    simp only [add32, M32]
    omega
  · have hbase : (Chacha20AVX.construct key c nonce).internal_state.r3.l7 =
        (c + (M32 - 2)) % M32 := rfl
    have hperm : ((Chacha20AVX.chacha20_block
        (stepRows^[N] (Chacha20AVX.construct key c nonce).internal_state)).1).r3.l7 =
        add32 ((stepRows^[N] (Chacha20AVX.construct key c nonce).internal_state)).r3.l7 2 := rfl
    rw [hperm, stepRows_l7_iter N _ (by rw [hbase]; exact Nat.mod_lt _ (by norm_num [M32])),
      hbase]
    simp only [add32, M32]
    omega
  · have hbase : (Chacha20AVX.construct key c nonce).internal_state.r3.l3 =
        (c + (M32 - 1)) % M32 := rfl
    have hperm : ((Chacha20AVX.chacha20_block
        (stepRows^[N] (Chacha20AVX.construct key c nonce).internal_state)).1).r3.l3 =
        add32 ((stepRows^[N] (Chacha20AVX.construct key c nonce).internal_state)).r3.l3 2 := rfl
    rw [hperm, stepRows_l3_iter N _ (by rw [hbase]; exact Nat.mod_lt _ (by norm_num [M32])),
      hbase]
    simp only [add32, M32]
    omega

/-- C4: applying the transform twice with fresh engines built from the same
key, nonce and counter returns the original message, for every message of
bytes. -/
theorem claim_C4_involution (key nonce msg : List Nat) (block_count : Nat)
    (hb : ∀ x ∈ msg, x < 256) :
    Chacha20.transform key block_count nonce
        (Chacha20.transform key block_count nonce msg) = msg := by
  simp only [Chacha20.transform, Chacha20.Engine.encrypt]
  exact encryptLoop_invol_fuel msg.length msg le_rfl _ hb

theorem claim_C4_witness :
    (∀ x ∈ ([10, 20, 255] : List Nat), x < 256) ∧
    Chacha20.transform [1, 2, 3, 4, 5, 6, 7, 8] 7 [9, 10, 11]
        (Chacha20.transform [1, 2, 3, 4, 5, 6, 7, 8] 7 [9, 10, 11] [10, 20, 255]) =
      [10, 20, 255] :=
  ⟨by decide, claim_C4_involution [1, 2, 3, 4, 5, 6, 7, 8] [9, 10, 11] [10, 20, 255] 7 (by decide)⟩

/-- C5: the keystream block returned by the block function is obtained from
the state matrix (with its counter value) by copying it, applying exactly 10
double rounds to the copy, where each double round applies the quarter round
to the columns 0,4,8,12 / 1,5,9,13 / 2,6,10,14 / 3,7,11,15 and then to the
diagonals 0,5,10,15 / 1,6,11,12 / 2,7,8,13 / 3,4,9,14, and adding the copy
word-by-word modulo 2^32 to the pre-round state (feed-forward). -/
theorem claim_C5_block_structure (m : Chacha20.State) :
    ((Chacha20.chacha20_block m).2).words =
      spec_block (((Chacha20.chacha20_block m).1).words) := by
  rw [scalar_block_eq]
  show (Chacha20.addState (Chacha20.double_round^[10] (bump m)) (bump m)).words =
    spec_block ((bump m).words)
  rw [addState_words, spec_block, spec_dr_iterate]

/-- C6 (amended): for the scalar engine the block counter advances by
exactly one per 64-byte chunk consumed, and splitting a message at a
64-byte boundary across two encrypt calls on the same engine reproduces the
single-call output.  The AVX engine advances both counter lanes of its
state by two per dual-block call even when only one 64-byte chunk is
consumed, so there a 64-byte split skips a block and does not reproduce the
single-call output. -/
theorem claim_C6_block_boundary (c : Chacha20.Engine) (msg1 msg2 : List Nat)
    (hdvd : 64 ∣ msg1.length) (hctr : c.internal_state.s12 < M32) :
    ((c.encrypt (msg1 ++ msg2)).2 =
        (c.encrypt msg1).2 ++ (((c.encrypt msg1).1).encrypt msg2).2) ∧
    (((c.encrypt msg1).1).internal_state.s12 =
        (c.internal_state.s12 + (msg1.length + 63) / 64) % M32) := by
  constructor
  · simp only [Chacha20.Engine.encrypt]
    rw [encryptLoop_append_fuel msg1.length msg1 le_rfl hdvd c.internal_state msg2]
  · simp only [Chacha20.Engine.encrypt]
    rw [encryptLoop_fst_fuel msg1.length msg1 le_rfl c.internal_state hctr]

theorem claim_C6_witness :
    (64 ∣ (List.replicate 64 (0 : Nat)).length) ∧
    ((Chacha20.construct [0, 0, 0, 0, 0, 0, 0, 0] 0 [0, 0, 0]).internal_state.s12 < M32) ∧
    (((Chacha20.construct [0, 0, 0, 0, 0, 0, 0, 0] 0 [0, 0, 0]).encrypt
          (List.replicate 64 (0 : Nat) ++ [5, 6])).2 =
        ((Chacha20.construct [0, 0, 0, 0, 0, 0, 0, 0] 0 [0, 0, 0]).encrypt
          (List.replicate 64 (0 : Nat))).2 ++
        ((((Chacha20.construct [0, 0, 0, 0, 0, 0, 0, 0] 0 [0, 0, 0]).encrypt
          (List.replicate 64 (0 : Nat))).1).encrypt [5, 6]).2) ∧
    ((((Chacha20.construct [0, 0, 0, 0, 0, 0, 0, 0] 0 [0, 0, 0]).encrypt
          (List.replicate 64 (0 : Nat))).1).internal_state.s12 =
        ((Chacha20.construct [0, 0, 0, 0, 0, 0, 0, 0] 0 [0, 0, 0]).internal_state.s12 +
          ((List.replicate 64 (0 : Nat)).length + 63) / 64) % M32) := by
  refine ⟨by decide, by decide, ?_, ?_⟩
  · exact (claim_C6_block_boundary _ (List.replicate 64 0) [5, 6] (by decide) (by decide)).1
  · exact (claim_C6_block_boundary _ (List.replicate 64 0) [5, 6] (by decide) (by decide)).2

/-- C7: the byte sequence returned by encrypt always has exactly the length
of the input, for every engine and message, and the empty input yields the
empty output. -/
theorem claim_C7_length_preservation (c : Chacha20.Engine) (msg : List Nat) :
    ((c.encrypt msg).2).length = msg.length ∧ (c.encrypt []).2 = [] := by
  constructor
  · simp only [Chacha20.Engine.encrypt]
    exact encryptLoop_length c.internal_state msg
  · simp only [Chacha20.Engine.encrypt, encryptLoop_nil]

/-- C8: construction through the length-validating variant fails with an
InvalidLength error exactly when the key is not 8 words or the nonce not 3
words, and otherwise builds the engine. -/
theorem claim_C8_invalid_length (key nonce : List Nat) (block_count : Nat) :
    (construct_checked key block_count nonce =
        Except.error ConstructError.InvalidLength ↔
      (key.length ≠ 8 ∨ nonce.length ≠ 3)) ∧
    (key.length = 8 → nonce.length = 3 →
      construct_checked key block_count nonce =
        Except.ok (Chacha20.construct key block_count nonce)) := by
  constructor
  · constructor
    · intro h
      by_contra hcond
      rw [construct_checked, if_neg hcond] at h
      cases h
    · intro hcond
      rw [construct_checked, if_pos hcond]
  · intro hk hn
    rw [construct_checked, if_neg (by simp [hk, hn])]

theorem claim_C8_witness :
    (construct_checked [0, 0, 0] 5 [0, 0, 0] =
        Except.error ConstructError.InvalidLength) ∧
    (construct_checked [0, 0, 0, 0, 0, 0, 0, 0] 5 [0, 0, 0] =
        Except.ok (Chacha20.construct [0, 0, 0, 0, 0, 0, 0, 0] 5 [0, 0, 0])) :=
  ⟨(claim_C8_invalid_length [0, 0, 0] [0, 0, 0] 5).1.mpr (by decide),
   (claim_C8_invalid_length [0, 0, 0, 0, 0, 0, 0, 0] [0, 0, 0] 5).2 rfl rfl⟩

/-- Zeroing helper produces an all-zero list of the same length. -/
theorem secure_zero_eq (l : List Nat) :
    Chacha20.secure_zero l = List.replicate l.length 0 := by
  induction l with
  | nil => rfl
  | cons a t ih =>
    simp only [Chacha20.secure_zero, List.map_cons, List.length_cons,
      List.replicate_succ]
    simp only [Chacha20.secure_zero] at ih
    rw [ih]

/-- C9: after destruction every word of the key field, every word of the
nonce field and the block counter field are zero; the stores go through a
volatile pointer in `secure_zero`, which the optimizer cannot elide. -/
theorem claim_C9_destructor_zeroization (c : Chacha20.Engine) :
    c.destruct.key = List.replicate c.key.length 0 ∧
    c.destruct.block_count = 0 ∧
    c.destruct.nonce = List.replicate c.nonce.length 0 :=
  ⟨secure_zero_eq c.key, rfl, secure_zero_eq c.nonce⟩

/-- C10: encrypting the empty message returns the empty byte sequence and an
unchanged engine, for both the scalar and the AVX engine, so a subsequent
encrypt call behaves exactly as if the empty call had never happened. -/
theorem claim_C10_empty_message_frame (c : Chacha20.Engine) (a : Chacha20AVX.Engine) :
    c.encrypt [] = (c, []) ∧ a.encrypt [] = (a, []) ∧
    (∀ msg : List Nat, ((c.encrypt []).1).encrypt msg = c.encrypt msg) ∧
    (∀ msg : List Nat, ((a.encrypt []).1).encrypt msg = a.encrypt msg) := by
  have h1 : c.encrypt [] = (c, []) := by
    simp only [Chacha20.Engine.encrypt, encryptLoop_nil]
  have h2 : a.encrypt [] = (a, []) := by
    simp only [Chacha20AVX.Engine.encrypt, avxLoop_nil]
  refine ⟨h1, h2, ?_, ?_⟩
  · intro msg; rw [h1]
  · intro msg; rw [h2]

/-- The AVX while loop agrees with its structurally recursive fuel
variant. -/
theorem avxLoop_eq_fuel :
    ∀ (n : Nat) (msg : List Nat), msg.length ≤ n → ∀ st : Chacha20AVX.Rows,
      Chacha20AVX.encryptLoop st msg = Chacha20AVX.encryptFuel n st msg := by
  intro n
  induction n with
  | zero =>
    intro msg h st
    have hmsg : msg = [] := List.length_eq_zero.mp (by omega)
    subst hmsg
    rw [avxLoop_nil]
    rfl
  | succ n ih =>
    intro msg h st
    cases msg with
    | nil => rw [avxLoop_nil]; rfl
    | cons b rest =>
      rw [Chacha20AVX.encryptLoop, Chacha20AVX.encryptFuel]
      rw [← ih ((b :: rest).drop 128)
        (by simp only [List.length_drop, List.length_cons] at *; omega)]

/-- Hypothesis-free form of `avxLoop_eq_fuel`, usable as a rewrite rule. -/
theorem avxLoop_fuel_len (st : Chacha20AVX.Rows) (msg : List Nat) :
    Chacha20AVX.encryptLoop st msg = Chacha20AVX.encryptFuel msg.length st msg :=
  avxLoop_eq_fuel msg.length msg le_rfl st

/-- C6 (counterexample): the claim fails for the AVX engine.  With the
all-zero key and nonce and counter 0, encrypting 128 zero bytes in one call
differs from encrypting them as two 64-byte calls on the same engine: each
dual-block call advances both counter lanes by two even when only one
64-byte chunk is consumed, so the split resumes at block 2 and skips the
keystream of block 1. -/
theorem claim_C6_counterexample :
    ¬ (((Chacha20AVX.construct [0, 0, 0, 0, 0, 0, 0, 0] 0 [0, 0, 0]).encrypt
          (List.replicate 64 (0 : Nat) ++ List.replicate 64 (0 : Nat))).2 =
        ((Chacha20AVX.construct [0, 0, 0, 0, 0, 0, 0, 0] 0 [0, 0, 0]).encrypt
          (List.replicate 64 (0 : Nat))).2 ++
        ((((Chacha20AVX.construct [0, 0, 0, 0, 0, 0, 0, 0] 0 [0, 0, 0]).encrypt
          (List.replicate 64 (0 : Nat))).1).encrypt
          (List.replicate 64 (0 : Nat))).2) := by
  simp only [Chacha20AVX.Engine.encrypt, avxLoop_fuel_len]
  decide
